import Mathlib

/-!
Shallow embedding of the vk-mem-rs wrapper (`src/lib.rs`) for verification.

Machine integers (`u32`, `u64`, `usize`) are modelled as `Nat`: the embedded
code only copies these values between records, never performs arithmetic on
them, so no overflow can occur. Raw pointers are modelled as `Nat` addresses
with `0` standing for the null pointer. `f32` values are modelled by their raw
32-bit pattern (`F32`): the embedded code only assigns literals (`0.0`) and
copies values, never does floating-point arithmetic. `ash::vk::Result` is a
newtype over `i32`, modelled as a structure over `Int`. Fallible operations
return `Except VkResult α`, mirroring `VkResult<T> = Result<T, vk::Result>`.

The crate is a forwarding wrapper: the FFI functions it calls
(`vmaCreatePool`, `vmaAllocateMemory`, `vmaVirtualAllocate`, ...) live in the
bound C++ library / generated `ffi` module, which is not under `src/`. Where a
property depends on that missing layer, its behaviour is modelled from the
spec; each such definition carries a doc comment starting
`Modelled from the spec:`. Everything else is translated directly from
`src/lib.rs`.
-/

namespace VkMem

/-- An `f32` value, represented by its raw 32-bit pattern. The source only
assigns the literal `0.0` (pattern 0) and copies whole values, so this
representation is exact. -/
structure F32 where
  bits : Nat
deriving DecidableEq, Repr

/-- The pattern of the `f32` literal `0.0`. -/
def F32.zero : F32 := ⟨0⟩

/-- The pattern of the `f32` literal `1.0` (0x3F800000). -/
def F32.one : F32 := ⟨0x3F800000⟩

/-- A raw pointer address; `0` is the null pointer
(`::std::ptr::null_mut()`). -/
abbrev Ptr := Nat

/-- Model of `ash::vk::Result`, a newtype over `i32`
(`VK_SUCCESS = 0`, error codes are negative). -/
structure VkResult where
  code : Int
deriving DecidableEq, Repr

namespace VkResult

/-- Model of `vk::Result::SUCCESS`. -/
def SUCCESS : VkResult := ⟨0⟩

/-- Model of `vk::Result::ERROR_OUT_OF_HOST_MEMORY`. -/
def ERROR_OUT_OF_HOST_MEMORY : VkResult := ⟨-1⟩

/-- Model of `vk::Result::ERROR_OUT_OF_DEVICE_MEMORY`. -/
def ERROR_OUT_OF_DEVICE_MEMORY : VkResult := ⟨-2⟩

/-- Model of `vk::Result::ERROR_INITIALIZATION_FAILED`. -/
def ERROR_INITIALIZATION_FAILED : VkResult := ⟨-3⟩

/-- Model of `vk::Result::ERROR_FEATURE_NOT_PRESENT`. -/
def ERROR_FEATURE_NOT_PRESENT : VkResult := ⟨-8⟩

end VkResult

/-- Embedding of `fn ffi_to_result(result: vk::Result) -> VkResult<()>`
(src/lib.rs:1143-1149): `SUCCESS` maps to `Ok(())`, everything else to
`Err(result)`. -/
def ffi_to_result (result : VkResult) : Except VkResult Unit :=
  if result = VkResult.SUCCESS then Except.ok () else Except.error result

/-- The `ffi_to_result(raw_call())?; ...; Ok(value)` pattern shared by every
public `Allocator` / `VirtualBlock` operation that wraps an FFI call
(e.g. src/lib.rs:1469, 1478-1483, 1565-1575, 2517-2524): on FFI success the
wrapper's own value is returned, on FFI failure the `?` operator returns the
raw result code to the caller. -/
def wrap_ffi_call {α : Type} (raw : VkResult) (value : α) : Except VkResult α :=
  match ffi_to_result raw with
  | Except.ok _ => Except.ok value
  | Except.error e => Except.error e

/- ------------------------------------------------------------------ -/
/- Statistics structures and their FFI conversions                     -/
/- ------------------------------------------------------------------ -/

/-- Embedding of `ffi::VmaStatistics` (u32 counts, u64 byte totals). -/
structure VmaStatistics where
  blockCount : Nat
  allocationCount : Nat
  blockBytes : Nat
  allocationBytes : Nat
deriving DecidableEq, Repr

/-- Embedding of `pub struct Statistics` (src/lib.rs). -/
structure Statistics where
  block_count : Nat
  allocation_count : Nat
  block_bytes : Nat
  allocation_bytes : Nat
deriving DecidableEq, Repr

/-- Embedding of `impl From<ffi::VmaStatistics> for Statistics`
(src/lib.rs:1005-1014). -/
def Statistics.from_ffi (vma_statistics : VmaStatistics) : Statistics :=
  { block_count := vma_statistics.blockCount
    allocation_count := vma_statistics.allocationCount
    block_bytes := vma_statistics.blockBytes
    allocation_bytes := vma_statistics.allocationBytes }

/-- Embedding of `impl Into<ffi::VmaStatistics> for Statistics`
(src/lib.rs:1016-1025). -/
def Statistics.into_ffi (s : Statistics) : VmaStatistics :=
  { blockCount := s.block_count
    allocationCount := s.allocation_count
    blockBytes := s.block_bytes
    allocationBytes := s.allocation_bytes }

/-- Embedding of `ffi::VmaDetailedStatistics`. -/
structure VmaDetailedStatistics where
  statistics : VmaStatistics
  unusedRangeCount : Nat
  allocationSizeMin : Nat
  allocationSizeMax : Nat
  unusedRangeSizeMin : Nat
  unusedRangeSizeMax : Nat
deriving DecidableEq, Repr

/-- Embedding of `pub struct DetailedStatistics` (src/lib.rs). -/
structure DetailedStatistics where
  statistics : Statistics
  unused_range_count : Nat
  allocation_size_min : Nat
  allocation_size_max : Nat
  unused_range_size_min : Nat
  unused_range_size_max : Nat
deriving DecidableEq, Repr

/-- Embedding of `impl From<ffi::VmaDetailedStatistics> for DetailedStatistics`
(src/lib.rs:1027-1038). -/
def DetailedStatistics.from_ffi (v : VmaDetailedStatistics) : DetailedStatistics :=
  { statistics := Statistics.from_ffi v.statistics
    unused_range_count := v.unusedRangeCount
    allocation_size_min := v.allocationSizeMin
    allocation_size_max := v.allocationSizeMax
    unused_range_size_min := v.unusedRangeSizeMin
    unused_range_size_max := v.unusedRangeSizeMax }

/-- Embedding of `impl Into<ffi::VmaDetailedStatistics> for DetailedStatistics`
(src/lib.rs:1040-1051). -/
def DetailedStatistics.into_ffi (s : DetailedStatistics) : VmaDetailedStatistics :=
  { statistics := Statistics.into_ffi s.statistics
    unusedRangeCount := s.unused_range_count
    allocationSizeMin := s.allocation_size_min
    allocationSizeMax := s.allocation_size_max
    unusedRangeSizeMin := s.unused_range_size_min
    unusedRangeSizeMax := s.unused_range_size_max }

/- ------------------------------------------------------------------ -/
/- Flag constants (bit values from the bitflags! blocks in src/lib.rs) -/
/- ------------------------------------------------------------------ -/

namespace AllocatorPoolCreateFlags

/-- Bits of `AllocatorPoolCreateFlags::NONE`. -/
def NONE : Nat := 0x00000000

/-- Bits of `AllocatorPoolCreateFlags::IGNORE_BUFFER_IMAGE_GRANULARITY`. -/
def IGNORE_BUFFER_IMAGE_GRANULARITY : Nat := 0x00000002

/-- Bits of `AllocatorPoolCreateFlags::LINEAR_ALGORITHM`. -/
def LINEAR_ALGORITHM : Nat := 0x00000004

/-- Bits of `AllocatorPoolCreateFlags::BUDDY_ALGORITHM`. -/
def BUDDY_ALGORITHM : Nat := 0x00000008

end AllocatorPoolCreateFlags

namespace AllocationCreateFlags

/-- Bits of `AllocationCreateFlags::NONE`. -/
def NONE : Nat := 0x00000000

/-- Bits of `AllocationCreateFlags::DEDICATED_MEMORY`. -/
def DEDICATED_MEMORY : Nat := 0x00000001

/-- Bits of `AllocationCreateFlags::NEVER_ALLOCATE`. -/
def NEVER_ALLOCATE : Nat := 0x00000002

/-- Bits of `AllocationCreateFlags::WITHIN_BUDGET`. -/
def WITHIN_BUDGET : Nat := 0x00000100

/-- Bits of `AllocationCreateFlags::STRATEGY_MIN_MEMORY`. -/
def STRATEGY_MIN_MEMORY : Nat := 0x00010000

/-- Bits of `AllocationCreateFlags::STRATEGY_MIN_TIME`. -/
def STRATEGY_MIN_TIME : Nat := 0x00020000

/-- Bits of `AllocationCreateFlags::STRATEGY_MIN_OFFSET`. -/
def STRATEGY_MIN_OFFSET : Nat := 0x00040000

end AllocationCreateFlags

namespace VirtualAllocationCreateFlags

/-- Bits of `VirtualAllocationCreateFlags::UPPER_ADDRESS`
(= `AllocationCreateFlags::UPPER_ADDRESS.bits`). -/
def UPPER_ADDRESS : Nat := 0x00000040

/-- Bits of `VirtualAllocationCreateFlags::STRATEGY_MIN_TIME`
(= `AllocationCreateFlags::STRATEGY_MIN_TIME.bits`). -/
def STRATEGY_MIN_TIME : Nat := 0x00020000

end VirtualAllocationCreateFlags

namespace DefragmentationFlags

/-- Bits of `DefragmentationFlags::ALGORITHM_FAST`. -/
def ALGORITHM_FAST : Nat := 0x1

/-- Bits of `DefragmentationFlags::ALGORITHM_BALANCED`. -/
def ALGORITHM_BALANCED : Nat := 0x2

/-- Bits of `DefragmentationFlags::ALGORITHM_FULL`. -/
def ALGORITHM_FULL : Nat := 0x4

/-- Bits of `DefragmentationFlags::ALGORITHM_EXTENSIVE`. -/
def ALGORITHM_EXTENSIVE : Nat := 0x8

end DefragmentationFlags

/-- Model of `ash::vk::WHOLE_SIZE` (`u64::MAX`, i.e. `~0ULL`). -/
def WHOLE_SIZE : Nat := 2 ^ 64 - 1

/-- Model of `std::u32::MAX`. -/
def U32_MAX : Nat := 2 ^ 32 - 1

/- ------------------------------------------------------------------ -/
/- Create-info structures and their FFI conversions                    -/
/- ------------------------------------------------------------------ -/

/-- Embedding of `pub enum MemoryUsage` (src/lib.rs). -/
inductive MemoryUsage where
  | Unknown
  | GpuOnly
  | CpuOnly
  | CpuToGpu
  | GpuToCpu
  | CpuCopy
  | GpuLazilyAllocated
  | Auto
  | AutoPreferDevice
  | AutoPreferHost
  | MaxEnum
deriving DecidableEq, Repr

/-- Embedding of `pub struct AllocationCreateInfo` (src/lib.rs:757-806).
Flag sets are carried as their `u32` bit patterns; `pool` is an optional
raw `VmaPool` handle. -/
structure AllocationCreateInfo where
  flags : Nat
  usage : MemoryUsage
  required_flags : Nat
  preferred_flags : Nat
  memory_type_bits : Nat
  pool : Option Ptr
  p_user_data : Ptr
  priority : F32
deriving DecidableEq, Repr

/-- Embedding of `ffi::VmaAllocationCreateInfo` (bindgen struct: the `usage`
member is the raw `VmaMemoryUsage` enum value, `pool` a raw handle where null
is 0). -/
structure VmaAllocationCreateInfo where
  flags : Nat
  usage : Nat
  requiredFlags : Nat
  preferredFlags : Nat
  memoryTypeBits : Nat
  pool : Ptr
  pUserData : Ptr
  priority : F32
deriving DecidableEq, Repr

/-- Numeric values of the `ffi::VmaMemoryUsage_VMA_MEMORY_USAGE_*` constants
bound by the generated `ffi` module (the VMA header's enum values, in the
source's match order). -/
def memory_usage_to_ffi (usage : MemoryUsage) : Nat :=
  match usage with
  | MemoryUsage.Unknown => 0
  | MemoryUsage.GpuOnly => 1
  | MemoryUsage.CpuOnly => 2
  | MemoryUsage.CpuToGpu => 3
  | MemoryUsage.GpuToCpu => 4
  | MemoryUsage.CpuCopy => 5
  | MemoryUsage.GpuLazilyAllocated => 6
  | MemoryUsage.Auto => 7
  | MemoryUsage.AutoPreferDevice => 8
  | MemoryUsage.AutoPreferHost => 9
  | MemoryUsage.MaxEnum => 0x7FFFFFFF

/-- Embedding of `fn allocation_create_info_to_ffi(info: &AllocationCreateInfo)
-> ffi::VmaAllocationCreateInfo` (src/lib.rs:1153-1183). Note that the source
sets the output's `priority` field to the literal `0.0`, not to
`info.priority`. -/
def allocation_create_info_to_ffi (info : AllocationCreateInfo) : VmaAllocationCreateInfo :=
  { flags := info.flags
    usage := memory_usage_to_ffi info.usage
    requiredFlags := info.required_flags
    preferredFlags := info.preferred_flags
    memoryTypeBits := info.memory_type_bits
    pool :=
      match info.pool with
      | some pool => pool
      | none => 0
    pUserData := info.p_user_data
    priority := F32.zero }

/-- Embedding of `pub struct AllocatorPoolCreateInfo` (src/lib.rs:810-862). -/
structure AllocatorPoolCreateInfo where
  memory_type_index : Nat
  flags : Nat
  block_size : Nat
  min_block_count : Nat
  max_block_count : Nat
  priority : F32
  min_allocation_alignment : Nat
  p_memory_allocate_next : Ptr
deriving DecidableEq, Repr

/-- Embedding of `ffi::VmaPoolCreateInfo` (bindgen struct). -/
structure VmaPoolCreateInfo where
  memoryTypeIndex : Nat
  flags : Nat
  blockSize : Nat
  minBlockCount : Nat
  maxBlockCount : Nat
  priority : F32
  minAllocationAlignment : Nat
  pMemoryAllocateNext : Ptr
deriving DecidableEq, Repr

/-- Embedding of `fn pool_create_info_to_ffi(info: &AllocatorPoolCreateInfo)
-> ffi::VmaPoolCreateInfo` (src/lib.rs:1186-1197). Note that the source sets
`priority` to the literal `0.0`, `minAllocationAlignment` to `0` and
`pMemoryAllocateNext` to `::std::ptr::null_mut()`, ignoring the corresponding
input fields. -/
def pool_create_info_to_ffi (info : AllocatorPoolCreateInfo) : VmaPoolCreateInfo :=
  { memoryTypeIndex := info.memory_type_index
    flags := info.flags
    blockSize := info.block_size
    minBlockCount := info.min_block_count
    maxBlockCount := info.max_block_count
    priority := F32.zero
    minAllocationAlignment := 0
    pMemoryAllocateNext := 0 }

/-- Embedding of `pub struct DefragmentationInfo` (src/lib.rs:875-893);
`flags` carries the `DefragmentationFlags` bit pattern, `pool` an optional
raw `VmaPool` handle. -/
structure DefragmentationInfo where
  flags : Nat
  pool : Option Ptr
  max_bytes_per_pass : Nat
  max_allocations_per_pass : Nat
deriving DecidableEq, Repr

/-- Embedding of `impl Default for DefragmentationInfo` (src/lib.rs:2641-2650). -/
def DefragmentationInfo.default : DefragmentationInfo :=
  { flags := DefragmentationFlags.ALGORITHM_BALANCED
    pool := none
    max_bytes_per_pass := WHOLE_SIZE
    max_allocations_per_pass := U32_MAX }

/- ------------------------------------------------------------------ -/
/- Spec-modelled FFI layer and the wrapper operations built on it      -/
/- ------------------------------------------------------------------ -/

/-- Modelled from the spec: the pool-creation validation performed by
`ffi::vmaCreatePool` (C++ VMA library, not under `src/`). Per the spec,
"construction-time misconfiguration (e.g., linear algorithm with
`max_block_count != 1`) fails fast at Pool/Allocator creation rather than
later at allocation time", and per the `LINEAR_ALGORITHM` doc comment in
`src/lib.rs`, "you must specify PoolCreateInfo::max_block_count == 1 (or 0
for default)". A well-formed request yields a fresh non-null pool handle
(abstracted by the `handle` parameter). -/
def vmaCreatePool (handle : Ptr) (ci : VmaPoolCreateInfo) : VkResult × Ptr :=
  if ci.flags &&& AllocatorPoolCreateFlags.LINEAR_ALGORITHM ≠ 0
      ∧ ci.maxBlockCount ≠ 0 ∧ ci.maxBlockCount ≠ 1 then
    (VkResult.ERROR_INITIALIZATION_FAILED, 0)
  else
    (VkResult.SUCCESS, handle)

/-- Embedding of `Allocator::create_pool` (src/lib.rs:1472-1484): converts the
pool info with `pool_create_info_to_ffi`, calls `vmaCreatePool` and propagates
its result through `ffi_to_result` and `?`. The fresh handle a successful FFI
call would write is abstracted by `handle`. -/
def Allocator.create_pool (handle : Ptr) (pool_info : AllocatorPoolCreateInfo) :
    Except VkResult Ptr :=
  let create_info := pool_create_info_to_ffi pool_info
  let raw := vmaCreatePool handle create_info
  match ffi_to_result raw.1 with
  | Except.ok _ => Except.ok raw.2
  | Except.error e => Except.error e

/-- Modelled from the spec: the budget-admission check performed by
`ffi::vmaAllocateMemory` (C++ VMA library, not under `src/`) for a request
that needs a new device memory block. Per the spec, "given a category with
`limit = L` and current `usage = U`, a within-budget request requiring a new
Block of size `B` must fail ... whenever `U + B > L`, and must succeed
(assuming device success) whenever `U + B <= L`"; per the `WITHIN_BUDGET` doc
comment in `src/lib.rs`, the failure code is `VK_ERROR_OUT_OF_DEVICE_MEMORY`.
Device-level success is assumed (the claim's hypothesis), so the non-failing
branch returns `SUCCESS`. -/
def vmaAllocateMemoryBudget (flags : Nat) (limit usage blockSize : Nat) : VkResult :=
  if flags &&& AllocationCreateFlags.WITHIN_BUDGET ≠ 0 ∧ usage + blockSize > limit then
    VkResult.ERROR_OUT_OF_DEVICE_MEMORY
  else
    VkResult.SUCCESS

/-- Embedding of `Allocator::allocate_memory` (src/lib.rs:1560-1577)
specialised to a request that requires a new block of size `blockSize` in a
category with budget `limit` and current `usage`: the create info is converted
with `allocation_create_info_to_ffi` (which forwards the flag bits), the FFI
call's admission decision is spec-modelled by `vmaAllocateMemoryBudget`, and
its result code is propagated through `ffi_to_result` and `?`. -/
def Allocator.allocate_memory (allocation_info : AllocationCreateInfo)
    (limit usage blockSize : Nat) : Except VkResult Unit :=
  let create_info := allocation_create_info_to_ffi allocation_info
  ffi_to_result (vmaAllocateMemoryBudget create_info.flags limit usage blockSize)

/-- Embedding of `ffi::VmaVirtualAllocationCreateInfo` (bindgen struct). -/
structure VmaVirtualAllocationCreateInfo where
  size : Nat
  alignment : Nat
  flags : Nat
  pUserData : Ptr
deriving DecidableEq, Repr

/-- Embedding of the `valloc_create_info` construction inside
`VirtualBlock::allocate` (src/lib.rs:2502-2511): `alignment` defaults to
`vk::DeviceSize::default()` (0), absent `flags` default to
`VirtualAllocationCreateFlags::STRATEGY_MIN_TIME.bits`, and an absent
`p_user_data` defaults to `::std::ptr::null_mut()`. -/
def virtual_alloc_create_info (size : Nat) (alignment : Option Nat)
    (flags : Option Nat) (p_user_data : Option Ptr) : VmaVirtualAllocationCreateInfo :=
  { size := size
    alignment :=
      match alignment with
      | some a => a
      | none => 0
    flags :=
      match flags with
      | some flags_value => flags_value
      | none => VirtualAllocationCreateFlags.STRATEGY_MIN_TIME
    pUserData :=
      match p_user_data with
      | some p => p
      | none => 0 }

/-- Modelled from the spec: `ffi::vmaVirtualAllocate` (C++ VMA library, not
under `src/`). Per the spec's placement-algorithm edge cases, a "zero-size
request is rejected (`InvalidArgument`)"; the Vulkan result code standing for
`InvalidArgument` is modelled as `ERROR_INITIALIZATION_FAILED`, the code VMA
uses for invalid requests. A non-zero-size request whose placement succeeds
yields the handle abstracted by the `handle` parameter. -/
def vmaVirtualAllocate (handle : Ptr) (ci : VmaVirtualAllocationCreateInfo) :
    VkResult × Ptr :=
  if ci.size = 0 then
    (VkResult.ERROR_INITIALIZATION_FAILED, 0)
  else
    (VkResult.SUCCESS, handle)

/-- Embedding of `VirtualBlock::allocate` (src/lib.rs:2490-2525): builds the
FFI create info with the defaulting rules of `virtual_alloc_create_info`,
calls `vmaVirtualAllocate` (spec-modelled, success handle abstracted by
`handle`) and propagates its result code through `ffi_to_result` and `?`. -/
def VirtualBlock.allocate (handle : Ptr) (size : Nat) (alignment : Option Nat)
    (flags : Option Nat) (p_user_data : Option Ptr) : Except VkResult Ptr :=
  let valloc_create_info := virtual_alloc_create_info size alignment flags p_user_data
  let raw := vmaVirtualAllocate handle valloc_create_info
  match ffi_to_result raw.1 with
  | Except.ok _ => Except.ok raw.2
  | Except.error e => Except.error e

/- ------------------------------------------------------------------ -/
/- Allocator::destroy / Drop                                           -/
/- ------------------------------------------------------------------ -/

/-- State of an `Allocator` value for the destroy/Drop protocol: `internal` is
the raw `ffi::VmaAllocator` handle (0 = null), and `ffi_destroy_calls` counts,
as instrumentation, how many times `ffi::vmaDestroyAllocator` has been invoked
on this value so far. -/
structure AllocatorState where
  internal : Ptr
  ffi_destroy_calls : Nat
deriving DecidableEq, Repr

/-- Embedding of `Allocator::destroy` (src/lib.rs:1278-1283): if the internal
handle is non-null, call `ffi::vmaDestroyAllocator` (counted) and set the
handle to null; otherwise do nothing. -/
def Allocator.destroy (a : AllocatorState) : AllocatorState :=
  if a.internal ≠ 0 then
    { internal := 0, ffi_destroy_calls := a.ffi_destroy_calls + 1 }
  else
    a

/-- Embedding of `impl Drop for Allocator` (src/lib.rs:2653-2659): `drop`
simply calls `self.destroy()`. -/
def Allocator.drop (a : AllocatorState) : AllocatorState :=
  Allocator.destroy a

/- ------------------------------------------------------------------ -/
/- Allocator::get_heap_budgets                                         -/
/- ------------------------------------------------------------------ -/

/-- Embedding of `ffi::VmaBudget` (bindgen struct). -/
structure VmaBudget where
  statistics : VmaStatistics
  usage : Nat
  budget : Nat
deriving DecidableEq, Repr

/-- Embedding of `pub struct Budget` (src/lib.rs). -/
structure Budget where
  statistics : Statistics
  usage : Nat
  budget : Nat
deriving DecidableEq, Repr

/-- Embedding of the per-entry conversion closure inside
`Allocator::get_heap_budgets` (src/lib.rs:1372-1381): each `ffi::VmaBudget`
is rebuilt field by field into a `Budget`. -/
def budget_from_ffi (value : VmaBudget) : Budget :=
  { statistics :=
      { block_count := value.statistics.blockCount
        allocation_count := value.statistics.allocationCount
        block_bytes := value.statistics.blockBytes
        allocation_bytes := value.statistics.allocationBytes }
    usage := value.usage
    budget := value.budget }

/-- Embedding of `Allocator::get_heap_budgets` (src/lib.rs:1365-1384): the
wrapper builds a buffer of `budget_count` entries, lets `vmaGetHeapBudgets`
fill it, and maps every entry through the conversion closure. The buffer
contents after the FFI call are abstracted by `fill`, indexed by position. -/
def Allocator.get_heap_budgets (budget_count : Nat) (fill : Nat → VmaBudget) :
    List Budget :=
  ((List.range budget_count).map fill).map budget_from_ffi

/- ------------------------------------------------------------------ -/
/- Theorems                                                            -/
/- ------------------------------------------------------------------ -/

/-- Concrete pool create info exercising the policy fields: priority 1.0,
minimum allocation alignment 64, non-null `pNext` chain pointer. -/
def c1_pool_input : AllocatorPoolCreateInfo :=
  { memory_type_index := 3
    flags := AllocatorPoolCreateFlags.IGNORE_BUFFER_IMAGE_GRANULARITY
    block_size := 65536
    min_block_count := 1
    max_block_count := 4
    priority := F32.one
    min_allocation_alignment := 64
    p_memory_allocate_next := 0xABC }

/-- Concrete allocation create info with priority 1.0. -/
def c1_alloc_input : AllocationCreateInfo :=
  { flags := AllocationCreateFlags.DEDICATED_MEMORY
    usage := MemoryUsage.Auto
    required_flags := 0
    preferred_flags := 0
    memory_type_bits := 0
    pool := none
    p_user_data := 7
    priority := F32.one }

/-- Claim C1: at the concrete inputs above, the FFI conversions do NOT forward
the caller's policy values: `pool_create_info_to_ffi` hardcodes `priority` to
0.0, `minAllocationAlignment` to 0 and `pMemoryAllocateNext` to null instead
of the input's 1.0 / 64 / 0xABC, and `allocation_create_info_to_ffi` hardcodes
`priority` to 0.0 instead of the input's 1.0 — while the remaining fields
(memoryTypeIndex, flags, blockSize, minBlockCount, maxBlockCount) are indeed
forwarded. This refutes the claim as stated and exhibits the divergence. -/
theorem create_info_to_ffi_drops_policy_fields :
    (pool_create_info_to_ffi c1_pool_input).priority ≠ c1_pool_input.priority
    ∧ (pool_create_info_to_ffi c1_pool_input).priority = F32.zero
    ∧ (pool_create_info_to_ffi c1_pool_input).minAllocationAlignment
        ≠ c1_pool_input.min_allocation_alignment
    ∧ (pool_create_info_to_ffi c1_pool_input).minAllocationAlignment = 0
    ∧ (pool_create_info_to_ffi c1_pool_input).pMemoryAllocateNext
        ≠ c1_pool_input.p_memory_allocate_next
    ∧ (pool_create_info_to_ffi c1_pool_input).pMemoryAllocateNext = 0
    ∧ (allocation_create_info_to_ffi c1_alloc_input).priority ≠ c1_alloc_input.priority
    ∧ (allocation_create_info_to_ffi c1_alloc_input).priority = F32.zero
    ∧ (pool_create_info_to_ffi c1_pool_input).memoryTypeIndex
        = c1_pool_input.memory_type_index
    ∧ (pool_create_info_to_ffi c1_pool_input).flags = c1_pool_input.flags
    ∧ (pool_create_info_to_ffi c1_pool_input).blockSize = c1_pool_input.block_size
    ∧ (pool_create_info_to_ffi c1_pool_input).minBlockCount
        = c1_pool_input.min_block_count
    ∧ (pool_create_info_to_ffi c1_pool_input).maxBlockCount
        = c1_pool_input.max_block_count := by
  decide

/-- Claim C2: `ffi_to_result` returns `Ok(())` exactly on `SUCCESS` and
otherwise `Err` carrying the original result value, so any wrapper operation
following the `ffi_to_result(...)?` pattern propagates a non-`SUCCESS` FFI
code unmodified to its caller and returns its own value on success. -/
theorem ffi_to_result_propagates {α : Type} (r : VkResult) (v : α) :
    (ffi_to_result r = Except.ok () ↔ r = VkResult.SUCCESS)
    ∧ (r ≠ VkResult.SUCCESS →
        ffi_to_result r = Except.error r ∧ wrap_ffi_call r v = Except.error r)
    ∧ (r = VkResult.SUCCESS → wrap_ffi_call r v = Except.ok v) := by
  unfold wrap_ffi_call ffi_to_result
  by_cases h : r = VkResult.SUCCESS <;> simp [h]

/-- Witness for C2: at `r = ERROR_OUT_OF_HOST_MEMORY` (a non-`SUCCESS` code),
the error is propagated unmodified. -/
theorem ffi_to_result_propagates_witness :
    ffi_to_result VkResult.ERROR_OUT_OF_HOST_MEMORY
        = Except.error VkResult.ERROR_OUT_OF_HOST_MEMORY
    ∧ wrap_ffi_call VkResult.ERROR_OUT_OF_HOST_MEMORY (37 : Nat)
        = Except.error VkResult.ERROR_OUT_OF_HOST_MEMORY :=
  (ffi_to_result_propagates VkResult.ERROR_OUT_OF_HOST_MEMORY (37 : Nat)).2.1
    (by decide)

/-- Claim C3: for a request with the `WITHIN_BUDGET` flag set that requires a
new block of size `B` in a category with limit `L` and usage `U`,
`Allocator::allocate_memory` fails with the out-of-budget error code
(`ERROR_OUT_OF_DEVICE_MEMORY`, per the `WITHIN_BUDGET` documentation)
whenever `U + B > L`, and succeeds whenever `U + B ≤ L` (device success
assumed). The admission check itself is modelled from the spec, since the
deciding code lives in the bound C++ library. -/
theorem allocate_memory_budget_admission (info : AllocationCreateInfo)
    (L U B : Nat)
    (hflag : info.flags &&& AllocationCreateFlags.WITHIN_BUDGET ≠ 0) :
    (U + B > L →
      Allocator.allocate_memory info L U B
        = Except.error VkResult.ERROR_OUT_OF_DEVICE_MEMORY)
    ∧ (U + B ≤ L → Allocator.allocate_memory info L U B = Except.ok ()) := by
  unfold Allocator.allocate_memory vmaAllocateMemoryBudget
    allocation_create_info_to_ffi ffi_to_result
  by_cases h : U + B > L <;>
    simp [h, hflag, Nat.not_lt.mpr, VkResult.ERROR_OUT_OF_DEVICE_MEMORY,
      VkResult.SUCCESS]

/-- Concrete create info carrying the `WITHIN_BUDGET` flag. -/
def c3_info : AllocationCreateInfo :=
  { flags := AllocationCreateFlags.WITHIN_BUDGET
    usage := MemoryUsage.Auto
    required_flags := 0
    preferred_flags := 0
    memory_type_bits := 0
    pool := none
    p_user_data := 0
    priority := F32.zero }

/-- Witness for C3: with limit 100 and usage 60, a request needing a new
block of size 50 is rejected out-of-budget, while one needing size 40
succeeds. -/
theorem allocate_memory_budget_admission_witness :
    Allocator.allocate_memory c3_info 100 60 50
        = Except.error VkResult.ERROR_OUT_OF_DEVICE_MEMORY
    ∧ Allocator.allocate_memory c3_info 100 60 40 = Except.ok () :=
  ⟨(allocate_memory_budget_admission c3_info 100 60 50 (by decide)).1 (by decide),
   (allocate_memory_budget_admission c3_info 100 60 40 (by decide)).2 (by decide)⟩

/-- Claim C4: `Allocator::create_pool` on a pool info whose flags contain
`LINEAR_ALGORITHM` and whose `max_block_count` is neither 0 nor 1 returns an
error at pool-creation time, for every abstracted fresh handle. The
rejection itself is modelled from the spec ("fails fast at Pool/Allocator
creation"); the wrapper's conversion forwarding `flags` and `maxBlockCount`
into the FFI call is from the source. -/
theorem create_pool_linear_multi_block_fails_fast (handle : Ptr)
    (p : AllocatorPoolCreateInfo)
    (hlin : p.flags &&& AllocatorPoolCreateFlags.LINEAR_ALGORITHM ≠ 0)
    (h0 : p.max_block_count ≠ 0) (h1 : p.max_block_count ≠ 1) :
    Allocator.create_pool handle p
      = Except.error VkResult.ERROR_INITIALIZATION_FAILED := by
  unfold Allocator.create_pool vmaCreatePool pool_create_info_to_ffi ffi_to_result
  simp [hlin, h0, h1, VkResult.ERROR_INITIALIZATION_FAILED, VkResult.SUCCESS]

/-- Concrete misconfigured pool info: linear algorithm with
`max_block_count = 4`. -/
def c4_pool_input : AllocatorPoolCreateInfo :=
  { memory_type_index := 0
    flags := AllocatorPoolCreateFlags.LINEAR_ALGORITHM
    block_size := 1024
    min_block_count := 0
    max_block_count := 4
    priority := F32.zero
    min_allocation_alignment := 0
    p_memory_allocate_next := 0 }

/-- Witness for C4: the concrete misconfigured pool is rejected at creation
(handle 11 abstracts the would-be fresh pool handle). -/
theorem create_pool_linear_multi_block_fails_fast_witness :
    Allocator.create_pool 11 c4_pool_input
      = Except.error VkResult.ERROR_INITIALIZATION_FAILED :=
  create_pool_linear_multi_block_fails_fast 11 c4_pool_input
    (by decide) (by decide) (by decide)

/-- Claim C5: a zero-size request to `VirtualBlock::allocate` is rejected
with the invalid-argument error rather than yielding an allocation handle —
for every alignment, flags and user-data argument and every abstracted
success handle. The rejection is modelled from the spec ("zero-size request
is rejected (InvalidArgument)"); the wrapper forwards `size` into the FFI
create info unchanged (from the source). -/
theorem virtual_allocate_zero_size_rejected (handle : Ptr)
    (alignment : Option Nat) (flags : Option Nat) (p_user_data : Option Ptr) :
    VirtualBlock.allocate handle 0 alignment flags p_user_data
      = Except.error VkResult.ERROR_INITIALIZATION_FAILED := by
  unfold VirtualBlock.allocate vmaVirtualAllocate virtual_alloc_create_info
    ffi_to_result
  simp [VkResult.ERROR_INITIALIZATION_FAILED, VkResult.SUCCESS]

/-- Claim C6: the statistics conversions are mutually inverse round-trips,
both for `Statistics`/`ffi::VmaStatistics` and for
`DetailedStatistics`/`ffi::VmaDetailedStatistics`, preserving every field. -/
theorem statistics_conversions_roundtrip :
    (∀ s : Statistics, Statistics.from_ffi (Statistics.into_ffi s) = s)
    ∧ (∀ v : VmaStatistics, Statistics.into_ffi (Statistics.from_ffi v) = v)
    ∧ (∀ d : DetailedStatistics,
        DetailedStatistics.from_ffi (DetailedStatistics.into_ffi d) = d)
    ∧ (∀ w : VmaDetailedStatistics,
        DetailedStatistics.into_ffi (DetailedStatistics.from_ffi w) = w) :=
  ⟨fun _ => rfl, fun _ => rfl, fun _ => rfl, fun _ => rfl⟩

/-- Claim C7: `DefragmentationInfo::default()` selects the balanced algorithm
(`ALGORITHM_BALANCED`), targets the default pools (`pool = None`), and sets
an unbounded per-pass move budget: `max_bytes_per_pass = vk::WHOLE_SIZE`
(`u64::MAX`) and `max_allocations_per_pass = u32::MAX`. -/
theorem defragmentation_info_default_fields :
    DefragmentationInfo.default.flags = DefragmentationFlags.ALGORITHM_BALANCED
    ∧ DefragmentationInfo.default.pool = none
    ∧ DefragmentationInfo.default.max_bytes_per_pass = WHOLE_SIZE
    ∧ DefragmentationInfo.default.max_bytes_per_pass = 2 ^ 64 - 1
    ∧ DefragmentationInfo.default.max_allocations_per_pass = U32_MAX
    ∧ DefragmentationInfo.default.max_allocations_per_pass = 2 ^ 32 - 1 := by
  refine ⟨rfl, rfl, rfl, ?_, rfl, ?_⟩ <;> decide

/-- Destroying an allocator whose handle is already null is a no-op. -/
theorem destroy_of_null (a : AllocatorState) (h : a.internal = 0) :
    Allocator.destroy a = a := by
  unfold Allocator.destroy
  simp [h]

/-- Iterating destroy on a null-handle allocator never changes it. -/
theorem destroy_iterate_of_null (n : Nat) (a : AllocatorState)
    (h : a.internal = 0) : Allocator.destroy^[n] a = a := by
  induction n with
  | zero => rfl
  | succ m ih =>
      rw [Function.iterate_succ_apply, destroy_of_null a h]
      exact ih

/-- Claim C8: for an allocator on which the FFI destroy has not yet run, the
first `destroy` on a non-null handle performs exactly one FFI destroy call
and nulls the handle, `destroy` on a null handle performs no FFI call, `Drop`
after an explicit `destroy` adds no further call, and any number of repeated
`destroy` calls performs at most one FFI destroy over the value's lifetime. -/
theorem allocator_destroy_at_most_once (a : AllocatorState)
    (h : a.ffi_destroy_calls = 0) (n : Nat) :
    (a.internal ≠ 0 →
      Allocator.destroy a = { internal := 0, ffi_destroy_calls := 1 })
    ∧ (a.internal = 0 → Allocator.destroy a = a)
    ∧ (Allocator.drop (Allocator.destroy a)).ffi_destroy_calls ≤ 1
    ∧ (Allocator.destroy^[n] a).ffi_destroy_calls ≤ 1 := by
  have hnull : ∀ b : AllocatorState, b.internal = 0 → Allocator.destroy b = b :=
    destroy_of_null
  refine ⟨?_, hnull a, ?_, ?_⟩
  · intro hi
    unfold Allocator.destroy
    simp [hi, h]
  · by_cases hi : a.internal = 0
    · rw [hnull a hi]
      unfold Allocator.drop
      rw [hnull a hi, h]
      exact Nat.zero_le 1
    · have hd : Allocator.destroy a
          = { internal := 0, ffi_destroy_calls := a.ffi_destroy_calls + 1 } := by
        unfold Allocator.destroy
        simp [hi]
      unfold Allocator.drop
      rw [hd, destroy_of_null _ rfl]
      simp [h]
  · cases n with
    | zero => simp [h]
    | succ m =>
        rw [Function.iterate_succ_apply]
        by_cases hi : a.internal = 0
        · rw [hnull a hi, destroy_iterate_of_null m a hi, h]
          exact Nat.zero_le 1
        · have hd : Allocator.destroy a
              = { internal := 0, ffi_destroy_calls := a.ffi_destroy_calls + 1 } := by
            unfold Allocator.destroy
            simp [hi]
          rw [hd, destroy_iterate_of_null m _ rfl, h]

/-- Witness for C8: starting from handle 5 with no destroy calls yet, the
first destroy nulls the handle with exactly one FFI call, and three repeated
destroys still total at most one FFI call. -/
theorem allocator_destroy_at_most_once_witness :
    Allocator.destroy ⟨5, 0⟩ = ({ internal := 0, ffi_destroy_calls := 1 } : AllocatorState)
    ∧ (Allocator.destroy^[3] (⟨5, 0⟩ : AllocatorState)).ffi_destroy_calls ≤ 1 :=
  ⟨(allocator_destroy_at_most_once ⟨5, 0⟩ rfl 3).1 (by decide),
   (allocator_destroy_at_most_once ⟨5, 0⟩ rfl 3).2.2.2⟩

/-- Claim C9: `VirtualBlock::allocate` defaults omitted optional arguments in
the FFI request it builds: absent flags become the (non-empty)
`STRATEGY_MIN_TIME` bits, absent alignment becomes 0, absent user data
becomes the null pointer — while the requested size is forwarded unchanged. -/
theorem virtual_allocate_fills_defaults (size : Nat) :
    (virtual_alloc_create_info size none none none).flags
        = VirtualAllocationCreateFlags.STRATEGY_MIN_TIME
    ∧ VirtualAllocationCreateFlags.STRATEGY_MIN_TIME ≠ 0
    ∧ (virtual_alloc_create_info size none none none).alignment = 0
    ∧ (virtual_alloc_create_info size none none none).pUserData = 0
    ∧ (virtual_alloc_create_info size none none none).size = size :=
  ⟨rfl, by decide, rfl, rfl, rfl⟩

/-- Claim C10: `Allocator::get_heap_budgets(n)` returns exactly `n` entries,
the `i`-th being the field-for-field conversion of the `i`-th FFI budget
entry (block/allocation counts, byte totals, usage and budget), for every
buffer content `fill` the FFI call produced. -/
theorem get_heap_budgets_converts_all (n : Nat) (fill : Nat → VmaBudget) :
    (Allocator.get_heap_budgets n fill).length = n
    ∧ ∀ i, i < n →
        (Allocator.get_heap_budgets n fill)[i]? = some
          { statistics :=
              { block_count := (fill i).statistics.blockCount
                allocation_count := (fill i).statistics.allocationCount
                block_bytes := (fill i).statistics.blockBytes
                allocation_bytes := (fill i).statistics.allocationBytes }
            usage := (fill i).usage
            budget := (fill i).budget } := by
  constructor
  · simp [Allocator.get_heap_budgets]
  · intro i hi
    simp [Allocator.get_heap_budgets, List.getElem?_map, List.getElem?_range, hi,
      budget_from_ffi]

/-- Concrete FFI buffer content for the C10 witness. -/
def c10_fill (i : Nat) : VmaBudget :=
  { statistics :=
      { blockCount := i + 1
        allocationCount := 2 * i
        blockBytes := 4096 * (i + 1)
        allocationBytes := 1000 * i }
    usage := 10 * i
    budget := 99999 }

/-- Witness for C10: with two heap entries, the result has length 2 and its
second entry is the field-for-field conversion of the second FFI entry. -/
theorem get_heap_budgets_converts_all_witness :
    (Allocator.get_heap_budgets 2 c10_fill).length = 2
    ∧ (Allocator.get_heap_budgets 2 c10_fill)[1]? = some
        { statistics :=
            { block_count := (c10_fill 1).statistics.blockCount
              allocation_count := (c10_fill 1).statistics.allocationCount
              block_bytes := (c10_fill 1).statistics.blockBytes
              allocation_bytes := (c10_fill 1).statistics.allocationBytes }
          usage := (c10_fill 1).usage
          budget := (c10_fill 1).budget } :=
  ⟨(get_heap_budgets_converts_all 2 c10_fill).1,
   (get_heap_budgets_converts_all 2 c10_fill).2 1 (by decide)⟩

end VkMem
